import Mathlib

/-!
Verification of addons/cppcheckdata.py (cppcheck dump reader).

The Python module is embedded shallowly:
* each Python class becomes a structure whose fields mirror the attributes
  that the constructor and setId assign;
* Python object references between records of one configuration become
  arena indices: a reference into the token list is Ref.tok i, a reference
  into the scope list is Ref.scp i, and so on, where i is the position of
  the record in the corresponding accumulation list (document order);
* the Python dict IdMap, whose keys are identifier strings (with None also
  used as a key), becomes a function from Option String to
  Option (Option Ref): the outer Option records whether the key is present
  in the dict (a missing key raises KeyError in Python, modelled as an
  Except error), the inner Option is the stored reference, which is None
  for the reserved null encodings;
* fallible Python code (KeyError, int() on a malformed string, index
  errors) returns Except or Option.
-/

namespace Cppcheckdata

/-- Attribute list of one XML element; aget models element.get(key),
returning none when the attribute is absent. -/
abbrev Attrs := List (String × String)

def aget (e : Attrs) (k : String) : Option String :=
  (e.find? (fun p => p.1 == k)).map (fun p => p.2)

/-- Python truthiness of an optional string attribute value: None and the
empty string are falsy, every other string is truthy. -/
def truthy : Option String → Bool
  | none => false
  | some s => !(s == "")

/-- Value of a nonempty all-digit character list, base 10. -/
def digitsVal (l : List Char) : Option Nat :=
  if !l.isEmpty && l.all (fun c => c.isDigit) then
    some (l.foldl (fun a c => a * 10 + (c.toNat - 48)) 0)
  else
    none

/-- Model of Python int(s) on a decimal string: optional sign followed by
digits; anything else raises, modelled as none. -/
def pyInt (s : String) : Option Int :=
  match s.data with
  | [] => none
  | c :: rest =>
    if c == '-' then (digitsVal rest).map (fun n => -(n : Int))
    else if c == '+' then (digitsVal rest).map (fun n => (n : Int))
    else (digitsVal (c :: rest)).map (fun n => (n : Int))

/-- Arena reference: which accumulation list of the configuration a
resolved Python object reference points into, and at which index.
Ref.arg points into the function-argument variable bag that is carried
next to the configuration; Ref.vals points at the values list of the
ValueFlow record (set_id_map stores values.values, the list itself). -/
inductive Ref : Type where
  | tok (i : Nat)
  | scp (i : Nat)
  | fn (i : Nat)
  | var (i : Nat)
  | arg (i : Nat)
  | vals (i : Nat)
deriving DecidableEq

/-- ValueType class (lines 46-89). -/
structure ValueType where
  type : Option String
  sign : Option String
  bits : Int
  typeScopeId : Option String
  typeScope : Option Ref
  originalTypeName : Option String
  constness : Int
  pointer : Int
deriving DecidableEq

/-- Token class (lines 92-281). next and previous are arena indices into
the owning token list, mirroring the Python object references. -/
structure Token where
  Id : Option String
  str : Option String
  next : Option Nat
  previous : Option Nat
  linkId : Option String
  link : Option Ref
  scopeId : Option String
  scope : Option Ref
  isName : Bool
  isNumber : Bool
  isInt : Bool
  isFloat : Bool
  isString : Bool
  strlen : Option Int
  isChar : Bool
  isOp : Bool
  isArithmeticalOp : Bool
  isAssignmentOp : Bool
  isComparisonOp : Bool
  isLogicalOp : Bool
  isUnsigned : Bool
  isSigned : Bool
  isExpandedMacro : Bool
  varId : Option Int
  variableId : Option String
  variableRef : Option Ref
  functionId : Option String
  functionRef : Option Ref
  valuesId : Option String
  values : Option Ref
  valueType : Option ValueType
  typeScopeId : Option String
  typeScope : Option Ref
  astParentId : Option String
  astParent : Option Ref
  astOperand1Id : Option String
  astOperand1 : Option Ref
  astOperand2Id : Option String
  astOperand2 : Option Ref
  file : Option String
  linenr : Int
  column : Int
deriving DecidableEq

/-- Scope class (lines 284-332). -/
structure Scope where
  Id : Option String
  className : Option String
  functionId : Option String
  function : Option Ref
  bodyStartId : Option String
  bodyStart : Option Ref
  bodyEndId : Option String
  bodyEnd : Option Ref
  nestedInId : Option String
  nestedIn : Option Ref
  type : Option String
  isExecutable : Bool
deriving DecidableEq

/-- Function class (lines 335-378). argument and argumentId are kept as
association lists in insertion order, mirroring the Python dicts whose
keys are the 1-based argument numbers. -/
structure Function where
  Id : Option String
  tokenDefId : Option String
  tokenDef : Option Ref
  name : Option String
  type : Option String
  isVirtual : Bool
  isImplicitlyVirtual : Bool
  isStatic : Bool
  argument : List (Nat × Option Ref)
  argumentId : List (Nat × Option String)
deriving DecidableEq

/-- Variable class (lines 381-457). -/
structure Variable where
  Id : Option String
  nameTokenId : Option String
  nameToken : Option Ref
  typeStartTokenId : Option String
  typeStartToken : Option Ref
  typeEndTokenId : Option String
  typeEndToken : Option Ref
  access : Option String
  scopeId : Option String
  scope : Option Ref
  isArgument : Bool
  isArray : Bool
  isClass : Bool
  isConst : Bool
  isExtern : Bool
  isGlobal : Bool
  isLocal : Bool
  isPointer : Bool
  isReference : Bool
  isStatic : Bool
  constness : Option Int
deriving DecidableEq

/-- Value class (lines 460-503). intvalue and condition are parsed to
integers by the constructor; tokvalue, floatvalue and containerSize are
stored as the raw attribute strings (the constructor does not parse
them). -/
structure Value where
  intvalue : Option Int
  tokvalue : Option String
  floatvalue : Option String
  containerSize : Option String
  condition : Option Int
  valueKind : Option String
  inconclusive : Bool
deriving DecidableEq

/-- ValueFlow class (lines 506-523). -/
structure ValueFlow where
  Id : Option String
  values : List Value
deriving DecidableEq

/-- Directive class (lines 17-43). -/
structure Directive where
  str : Option String
  file : Option String
  linenr : Int
  column : Int
deriving DecidableEq

/-- Standards class (lines 670-684). -/
structure Standards where
  c : Option String
  cpp : Option String
  posix : Bool
deriving DecidableEq

/-- Suppression class (lines 526-547), raw attribute fields only. -/
structure Suppression where
  errorId : Option String
  fileName : Option String
  lineNumber : Option String
  symbolName : Option String
deriving DecidableEq

/-- Platform class (lines 637-667). -/
structure Platform where
  name : Option String
  char_bit : Int
  short_bit : Int
  int_bit : Int
  long_bit : Int
  long_long_bit : Int
  pointer_bit : Int
deriving DecidableEq

/-- Configuration class (lines 559-593). -/
structure Configuration where
  name : Option String
  directives : List Directive
  tokenlist : List Token
  scopes : List Scope
  functions : List Function
  variablesList : List Variable
  valueflow : List ValueFlow
  standards : List Standards
deriving DecidableEq

/-- Index form of Configuration.set_tokens_links (lines 595-602).
The Python loop walks the list keeping the previous token: it always
assigns token.previous to the previous token (None for the first), and
assigns prev.next to the current token whenever a previous token exists;
the last token therefore keeps whatever next it already had.  With tokens
addressed by their position, the assignment prev.next = token performed
while visiting position i+1 is recorded on the element at position i, so
the element at position i receives next = i+1 exactly when i+1 < n. -/
def set_tokens_links_aux (i n : Nat) : List Token → List Token
  | [] => []
  | t :: rest =>
      { t with previous := if i = 0 then none else some (i - 1),
               next := if i + 1 < n then some (i + 1) else t.next }
        :: set_tokens_links_aux (i + 1) n rest

def set_tokens_links (ts : List Token) : List Token :=
  set_tokens_links_aux 0 ts.length ts

/-- The per-configuration identifier lookup table built by set_id_map.
A key maps to some r when the dict has an entry for it, and to none when
looking it up would raise KeyError. -/
abbrev IdMap := Option String → Option (Option Ref)

def mapInsert (m : IdMap) (k : Option String) (v : Option Ref) : IdMap :=
  fun q => if q = k then some v else m q

/-- The dict literal opening Configuration.set_id_map (line 605): the
absent key None and the reserved all-zero identifier spellings all map to
the null reference. -/
def initialIdMap : IdMap :=
  fun q =>
    if q = none ∨ q = some "0" ∨ q = some "00000000" ∨ q = some "0000000000000000"
    then some none else none

/-- One of the insertion loops of set_id_map (lines 606-617): the records
of one list are inserted in order, the record at position i under its Id
attribute, later insertions overwriting earlier ones as in a Python
dict. -/
def insertIdsAux (mk : Nat → Ref) : Nat → List (Option String) → IdMap → IdMap
  | _, [], m => m
  | i, id :: rest, m => insertIdsAux mk (i + 1) rest (mapInsert m id (some (mk i)))

/-- The table-building phase of Configuration.set_id_map (lines 605-617):
tokens, scopes, functions, variables, the argument bag and the valueflow
records are inserted in that order. -/
def buildIdMap (cfg : Configuration) (arguments : List Variable) : IdMap :=
  insertIdsAux Ref.vals 0 (cfg.valueflow.map (fun v => v.Id))
    (insertIdsAux Ref.arg 0 (arguments.map (fun v => v.Id))
      (insertIdsAux Ref.var 0 (cfg.variablesList.map (fun v => v.Id))
        (insertIdsAux Ref.fn 0 (cfg.functions.map (fun f => f.Id))
          (insertIdsAux Ref.scp 0 (cfg.scopes.map (fun s => s.Id))
            (insertIdsAux Ref.tok 0 (cfg.tokenlist.map (fun t => t.Id)) initialIdMap)))))

/-- ValueType.setId (lines 79-80), performed by Token.setId when the token
has a valueType: looks up typeScopeId; a missing key propagates as the
outer none. -/
def resolveVT (m : IdMap) : Option ValueType → Option (Option ValueType)
  | none => some none
  | some vt => (m vt.typeScopeId).map (fun ts => some { vt with typeScope := ts })

/-- Token.setId (lines 257-268): every relational attribute is looked up
in the table; a key missing from the table raises, modelled as an
error result. -/
def tokenSetId (m : IdMap) (t : Token) : Except String Token :=
  match m t.scopeId, m t.linkId, m t.variableId, m t.functionId, m t.valuesId,
        m t.typeScopeId, m t.astParentId, m t.astOperand1Id, m t.astOperand2Id,
        resolveVT m t.valueType with
  | some sc, some li, some va, some fu, some vl, some tsc, some ap, some a1, some a2, some vt =>
      .ok { t with scope := sc, link := li, variableRef := va, functionRef := fu,
                   values := vl, typeScope := tsc, astParent := ap,
                   astOperand1 := a1, astOperand2 := a2, valueType := vt }
  | _, _, _, _, _, _, _, _, _, _ => .error "Id not found"

/-- Scope.setId (lines 328-332). -/
def scopeSetId (m : IdMap) (s : Scope) : Except String Scope :=
  match m s.bodyStartId, m s.bodyEndId, m s.nestedInId, m s.functionId with
  | some bs, some be, some ni, some fu =>
      .ok { s with bodyStart := bs, bodyEnd := be, nestedIn := ni, function := fu }
  | _, _, _, _ => .error "Id not found"

/-- One iteration of the argument loop in Function.setId (lines 376-377). -/
def argSetId (m : IdMap) (p : Nat × Option String) : Except String (Nat × Option Ref) :=
  match m p.2 with
  | some r => .ok (p.1, r)
  | none => .error "Id not found"

/-- Sequential fallible map, the shape of every setId loop in
set_id_map: the first failing element aborts the whole loop. -/
def mapE {α β : Type} (f : α → Except String β) : List α → Except String (List β)
  | [] => .ok []
  | x :: xs =>
    match f x with
    | .error e => .error e
    | .ok y =>
      match mapE f xs with
      | .error e => .error e
      | .ok ys => .ok (y :: ys)

/-- Function.setId (lines 375-378): resolve every entry of argumentId,
then tokenDef. -/
def functionSetId (m : IdMap) (f : Function) : Except String Function :=
  match mapE (argSetId m) f.argumentId, m f.tokenDefId with
  | .ok args, some td => .ok { f with argument := args, tokenDef := td }
  | .error e, _ => .error e
  | .ok _, none => .error "Id not found"

/-- Variable.setId (lines 453-457). -/
def variableSetId (m : IdMap) (v : Variable) : Except String Variable :=
  match m v.nameTokenId, m v.typeStartTokenId, m v.typeEndTokenId, m v.scopeId with
  | some nt, some tst, some tet, some sc =>
      .ok { v with nameToken := nt, typeStartToken := tst, typeEndToken := tet, scope := sc }
  | _, _, _, _ => .error "Id not found"

/-- Configuration.set_id_map (lines 604-627): build the table, then
rewrite tokens, scopes, functions, variables and the argument bag in that
order.  The valueflow records themselves are not rewritten. -/
def set_id_map (cfg : Configuration) (arguments : List Variable) :
    Except String (Configuration × List Variable) := do
  let m := buildIdMap cfg arguments
  let toks ← mapE (tokenSetId m) cfg.tokenlist
  let scps ← mapE (scopeSetId m) cfg.scopes
  let fns ← mapE (functionSetId m) cfg.functions
  let vars ← mapE (variableSetId m) cfg.variablesList
  let args ← mapE (variableSetId m) arguments
  pure ({ cfg with tokenlist := toks, scopes := scps, functions := fns, variablesList := vars }, args)

/-- Configuration.setIdMap (lines 629-634): link the token list, then
resolve identifiers. -/
def setIdMap (cfg : Configuration) (functions_arguments : List Variable) :
    Except String (Configuration × List Variable) :=
  set_id_map { cfg with tokenlist := set_tokens_links cfg.tokenlist } functions_arguments

/-- Token value with every reference and classification field at the
class-attribute default, used to build concrete example configurations. -/
def baseToken : Token :=
  { Id := none, str := none, next := none, previous := none,
    linkId := none, link := none, scopeId := none, scope := none,
    isName := false, isNumber := false, isInt := false, isFloat := false,
    isString := false, strlen := none, isChar := false, isOp := false,
    isArithmeticalOp := false, isAssignmentOp := false,
    isComparisonOp := false, isLogicalOp := false, isUnsigned := false,
    isSigned := false, isExpandedMacro := false, varId := none,
    variableId := none, variableRef := none, functionId := none,
    functionRef := none, valuesId := none, values := none,
    valueType := none, typeScopeId := none, typeScope := none,
    astParentId := none, astParent := none, astOperand1Id := none,
    astOperand1 := none, astOperand2Id := none, astOperand2 := none,
    file := none, linenr := 0, column := 0 }

/-- Configuration with all lists empty, used to build concrete example
configurations. -/
def baseConfiguration : Configuration :=
  { name := none, directives := [], tokenlist := [], scopes := [],
    functions := [], variablesList := [], valueflow := [], standards := [] }

theorem set_tokens_links_aux_length (n : Nat) :
    ∀ (ts : List Token) (i : Nat), (set_tokens_links_aux i n ts).length = ts.length := by
  intro ts
  induction ts with
  | nil => intro i; rfl
  | cons t rest ih => intro i; simp [set_tokens_links_aux, ih]

theorem set_tokens_links_aux_getElem (n : Nat) :
    ∀ (ts : List Token) (i j : Nat),
    (set_tokens_links_aux i n ts)[j]? =
      (ts[j]?).map (fun t =>
        { t with previous := if i + j = 0 then none else some (i + j - 1),
                 next := if i + j + 1 < n then some (i + j + 1) else t.next }) := by
  intro ts
  induction ts with
  | nil => intro i j; simp [set_tokens_links_aux]
  | cons t rest ih =>
    intro i j
    cases j with
    | zero => simp [set_tokens_links_aux]
    | succ j =>
      have h := ih (i + 1) j
      simp only [set_tokens_links_aux, List.getElem?_cons_succ, h]
      have e1 : i + 1 + j = i + (j + 1) := by omega
      rw [e1]

theorem set_tokens_links_getElem (ts : List Token) (j : Nat) :
    (set_tokens_links ts)[j]? =
      (ts[j]?).map (fun t =>
        { t with previous := if j = 0 then none else some (j - 1),
                 next := if j + 1 < ts.length then some (j + 1) else t.next }) := by
  have h := set_tokens_links_aux_getElem ts.length ts 0 j
  simpa [set_tokens_links] using h

theorem set_tokens_links_length (ts : List Token) :
    (set_tokens_links ts).length = ts.length :=
  set_tokens_links_aux_length ts.length ts 0

/-- Claim C4: after set_tokens_links runs on a configuration token list
(whose tokens, as built by the Token constructor, still have next = none),
the tokens form one strict doubly linked list: consecutive tokens point at
each other (so previous of next of t is t, and next of previous of t is
t), the first token has previous = none and the last token has
next = none. -/
theorem c4_doubly_linked (ts : List Token)
    (hlast : ∀ t, ts.getLast? = some t → t.next = none) :
    (set_tokens_links ts).length = ts.length ∧
    (∀ i t t', (set_tokens_links ts)[i]? = some t →
       (set_tokens_links ts)[i + 1]? = some t' →
       t.next = some (i + 1) ∧ t'.previous = some i) ∧
    (∀ t, (set_tokens_links ts)[0]? = some t → t.previous = none) ∧
    (∀ t, (set_tokens_links ts).getLast? = some t → t.next = none) := by
  refine ⟨set_tokens_links_length ts, ?_, ?_, ?_⟩
  · intro i t t' h1 h2
    rw [set_tokens_links_getElem] at h1 h2
    have hlen : i + 1 < ts.length := by
      by_contra hc
      rw [List.getElem?_eq_none (by omega)] at h2
      simp at h2
    obtain ⟨t0, ht0, he⟩ := Option.map_eq_some'.mp h1
    obtain ⟨t1, ht1, he'⟩ := Option.map_eq_some'.mp h2
    constructor
    · rw [← he]; simp [hlen]
    · rw [← he']; simp
  · intro t h
    rw [set_tokens_links_getElem] at h
    obtain ⟨t0, _, he⟩ := Option.map_eq_some'.mp h
    rw [← he]; simp
  · intro t h
    have hne : (set_tokens_links ts) ≠ [] := by
      intro hc; rw [hc] at h; simp at h
    have hlen := set_tokens_links_length ts
    have hgl : (set_tokens_links ts).getLast? =
        (set_tokens_links ts)[(set_tokens_links ts).length - 1]? := by
      rw [List.getLast?_eq_getElem?]
    rw [hgl, hlen, set_tokens_links_getElem] at h
    obtain ⟨t0, ht0, he⟩ := Option.map_eq_some'.mp h
    have hne' : ts ≠ [] := by
      intro hc; subst hc; simp at ht0
    have hidx : ¬ (ts.length - 1 + 1 < ts.length) := by omega
    have hl0 : ts.getLast? = some t0 := by
      rw [List.getLast?_eq_getElem?]; exact ht0
    have := hlast t0 hl0
    rw [← he]; simp [hidx, this]

def c4ExampleTokens : List Token :=
  [{ baseToken with Id := some "1" }, { baseToken with Id := some "2" }]

/-- Witness for C4 at a concrete two-token list. -/
theorem c4_witness :
    (set_tokens_links c4ExampleTokens).length = c4ExampleTokens.length :=
  (c4_doubly_linked c4ExampleTokens
    (by intro t h; simp [c4ExampleTokens, List.getLast?] at h; rw [← h]; rfl)).1

/-- The reserved null encodings of the identifier namespace: the absent
attribute and the all-zero spellings declared in the dict literal of
set_id_map. -/
def reservedKeys : List (Option String) :=
  [none, some "0", some "00000000", some "0000000000000000"]

/-- All identifiers issued by the records of one configuration together
with its argument bag, in table insertion order. -/
def configIssuedIds (cfg : Configuration) (arguments : List Variable) : List (Option String) :=
  cfg.tokenlist.map (fun t => t.Id) ++ cfg.scopes.map (fun s => s.Id) ++
  cfg.functions.map (fun f => f.Id) ++ cfg.variablesList.map (fun v => v.Id) ++
  arguments.map (fun v => v.Id) ++ cfg.valueflow.map (fun v => v.Id)

/-- The relational identifier attributes consulted by Token.setId. -/
def tokenRefIds (t : Token) : List (Option String) :=
  [t.scopeId, t.linkId, t.variableId, t.functionId, t.valuesId,
   t.typeScopeId, t.astParentId, t.astOperand1Id, t.astOperand2Id] ++
  (match t.valueType with
   | none => []
   | some vt => [vt.typeScopeId])

/-- The relational identifier attributes consulted by Scope.setId. -/
def scopeRefIds (s : Scope) : List (Option String) :=
  [s.bodyStartId, s.bodyEndId, s.nestedInId, s.functionId]

/-- The relational identifier attributes consulted by Function.setId. -/
def functionRefIds (f : Function) : List (Option String) :=
  f.argumentId.map (fun p => p.2) ++ [f.tokenDefId]

/-- The relational identifier attributes consulted by Variable.setId. -/
def variableRefIds (v : Variable) : List (Option String) :=
  [v.nameTokenId, v.typeStartTokenId, v.typeEndTokenId, v.scopeId]

/-- All relational identifier attributes of all records rewritten by
set_id_map. -/
def configRefIds (cfg : Configuration) (arguments : List Variable) : List (Option String) :=
  cfg.tokenlist.flatMap tokenRefIds ++ cfg.scopes.flatMap scopeRefIds ++
  cfg.functions.flatMap functionRefIds ++ cfg.variablesList.flatMap variableRefIds ++
  arguments.flatMap variableRefIds

theorem insertIdsAux_not_mem (mk : Nat → Ref) :
    ∀ (ids : List (Option String)) (i : Nat) (m : IdMap) (k : Option String),
    k ∉ ids → insertIdsAux mk i ids m k = m k := by
  intro ids
  induction ids with
  | nil => intro i m k _; rfl
  | cons a as ih =>
    intro i m k hk
    have h1 : k ≠ a := fun hc => hk (hc ▸ List.mem_cons_self a as)
    have h2 : k ∉ as := fun hc => hk (List.mem_cons_of_mem a hc)
    unfold insertIdsAux
    rw [ih (i + 1) _ k h2]
    simp [mapInsert, h1]

theorem insertIdsAux_last_occurrence (mk : Nat → Ref) :
    ∀ (ids : List (Option String)) (i p : Nat) (m : IdMap) (k : Option String),
    ids[p]? = some k → (∀ q, p < q → ids[q]? ≠ some k) →
    insertIdsAux mk i ids m k = some (some (mk (i + p))) := by
  intro ids
  induction ids with
  | nil => intro i p m k hp _; simp at hp
  | cons a as ih =>
    intro i p m k hp hq
    cases p with
    | zero =>
      simp at hp
      have hnot : k ∉ as := by
        intro hmem
        obtain ⟨q, hq', hget⟩ := List.getElem_of_mem hmem
        apply hq (q + 1) (Nat.succ_pos q)
        have hgq : as[q]? = some k := by rw [List.getElem?_eq_getElem hq', hget]
        simpa using hgq
      unfold insertIdsAux
      rw [insertIdsAux_not_mem mk as (i + 1) _ k hnot]
      simp [mapInsert, hp]
    | succ p =>
      have hp' : as[p]? = some k := by simpa using hp
      have hq' : ∀ q, p < q → as[q]? ≠ some k := by
        intro q hlt hc
        exact hq (q + 1) (by omega) (by simpa using hc)
      unfold insertIdsAux
      rw [ih (i + 1) p _ k hp' hq']
      have e : i + 1 + p = i + (p + 1) := by omega
      rw [e]

/-- Bind inversion for Except. -/
theorem exBind_ok {α β : Type} {x : Except String α} {f : α → Except String β} {b : β}
    (h : (x >>= f) = .ok b) : ∃ a, x = .ok a ∧ f a = .ok b := by
  cases x with
  | ok a => exact ⟨a, rfl, h⟩
  | error e => simp [Bind.bind, Except.bind] at h

theorem mapE_ok_forall {α β : Type} {f : α → Except String β} :
    ∀ {xs : List α} {ys : List β}, mapE f xs = .ok ys → ∀ x ∈ xs, ∃ y, f x = .ok y := by
  intro xs
  induction xs with
  | nil => intro ys _ x hx; simp at hx
  | cons a as ih =>
    intro ys h x hx
    unfold mapE at h
    cases hfa : f a with
    | error e => rw [hfa] at h; simp at h
    | ok y =>
      rw [hfa] at h
      cases hrest : mapE f as with
      | error e => rw [hrest] at h; simp at h
      | ok ys' =>
        rcases List.mem_cons.mp hx with rfl | hx'
        · exact ⟨y, hfa⟩
        · exact ih hrest x hx'

theorem tokenSetId_ok_inv {m : IdMap} {t t' : Token} (h : tokenSetId m t = .ok t') :
    ∃ sc li va fu vl tsc ap a1 a2 vt,
      m t.scopeId = some sc ∧ m t.linkId = some li ∧ m t.variableId = some va ∧
      m t.functionId = some fu ∧ m t.valuesId = some vl ∧ m t.typeScopeId = some tsc ∧
      m t.astParentId = some ap ∧ m t.astOperand1Id = some a1 ∧
      m t.astOperand2Id = some a2 ∧ resolveVT m t.valueType = some vt ∧
      t' = { t with scope := sc, link := li, variableRef := va, functionRef := fu,
                    values := vl, typeScope := tsc, astParent := ap,
                    astOperand1 := a1, astOperand2 := a2, valueType := vt } := by
  unfold tokenSetId at h
  split at h
  · rename_i sc li va fu vl tsc ap a1 a2 vt h1 h2 h3 h4 h5 h6 h7 h8 h9 h10
    injection h with h
    exact ⟨sc, li, va, fu, vl, tsc, ap, a1, a2, vt,
      h1, h2, h3, h4, h5, h6, h7, h8, h9, h10, h.symm⟩
  · simp at h

theorem scopeSetId_ok_inv {m : IdMap} {s s' : Scope} (h : scopeSetId m s = .ok s') :
    ∃ bs be ni fu,
      m s.bodyStartId = some bs ∧ m s.bodyEndId = some be ∧
      m s.nestedInId = some ni ∧ m s.functionId = some fu ∧
      s' = { s with bodyStart := bs, bodyEnd := be, nestedIn := ni, function := fu } := by
  unfold scopeSetId at h
  split at h
  · rename_i bs be ni fu h1 h2 h3 h4
    injection h with h
    exact ⟨bs, be, ni, fu, h1, h2, h3, h4, h.symm⟩
  · simp at h

theorem functionSetId_ok_inv {m : IdMap} {f f' : Function} (h : functionSetId m f = .ok f') :
    ∃ args td,
      mapE (argSetId m) f.argumentId = .ok args ∧ m f.tokenDefId = some td ∧
      f' = { f with argument := args, tokenDef := td } := by
  unfold functionSetId at h
  split at h
  · rename_i args td h1 h2
    injection h with h
    exact ⟨args, td, h1, h2, h.symm⟩
  · simp at h
  · simp at h

theorem variableSetId_ok_inv {m : IdMap} {v v' : Variable} (h : variableSetId m v = .ok v') :
    ∃ nt tst tet sc,
      m v.nameTokenId = some nt ∧ m v.typeStartTokenId = some tst ∧
      m v.typeEndTokenId = some tet ∧ m v.scopeId = some sc ∧
      v' = { v with nameToken := nt, typeStartToken := tst,
                    typeEndToken := tet, scope := sc } := by
  unfold variableSetId at h
  split at h
  · rename_i nt tst tet sc h1 h2 h3 h4
    injection h with h
    exact ⟨nt, tst, tet, sc, h1, h2, h3, h4, h.symm⟩
  · simp at h

theorem argSetId_ok_inv {m : IdMap} {p : Nat × Option String} {q : Nat × Option Ref}
    (h : argSetId m p = .ok q) : ∃ r, m p.2 = some r ∧ q = (p.1, r) := by
  unfold argSetId at h
  split at h
  · rename_i r h1
    injection h with h
    exact ⟨r, h1, h.symm⟩
  · simp at h

theorem tokenSetId_ok_lookup {m : IdMap} {t t' : Token} (h : tokenSetId m t = .ok t') :
    ∀ id ∈ tokenRefIds t, (m id).isSome := by
  obtain ⟨sc, li, va, fu, vl, tsc, ap, a1, a2, vt, h1, h2, h3, h4, h5, h6, h7, h8, h9, h10, _⟩ :=
    tokenSetId_ok_inv h
  intro id hid
  unfold tokenRefIds at hid
  rcases List.mem_append.mp hid with hid | hid
  · simp at hid
    rcases hid with rfl | rfl | rfl | rfl | rfl | rfl | rfl | rfl | rfl <;>
      simp [h1, h2, h3, h4, h5, h6, h7, h8, h9]
  · cases hvt : t.valueType with
    | none => rw [hvt] at hid; simp at hid
    | some vt0 =>
      rw [hvt] at hid
      simp at hid
      subst hid
      rw [hvt] at h10
      unfold resolveVT at h10
      obtain ⟨ts0, hts0, _⟩ := Option.map_eq_some'.mp h10
      simp [hts0]

theorem scopeSetId_ok_lookup {m : IdMap} {s s' : Scope} (h : scopeSetId m s = .ok s') :
    ∀ id ∈ scopeRefIds s, (m id).isSome := by
  obtain ⟨bs, be, ni, fu, h1, h2, h3, h4, _⟩ := scopeSetId_ok_inv h
  intro id hid
  unfold scopeRefIds at hid
  simp at hid
  rcases hid with rfl | rfl | rfl | rfl <;> simp [h1, h2, h3, h4]

theorem functionSetId_ok_lookup {m : IdMap} {f f' : Function} (h : functionSetId m f = .ok f') :
    ∀ id ∈ functionRefIds f, (m id).isSome := by
  obtain ⟨args, td, h1, h2, _⟩ := functionSetId_ok_inv h
  intro id hid
  unfold functionRefIds at hid
  rcases List.mem_append.mp hid with hid | hid
  · obtain ⟨p, hp, hpid⟩ := List.mem_map.mp hid
    obtain ⟨q, hq⟩ := mapE_ok_forall h1 p hp
    obtain ⟨r, hr, _⟩ := argSetId_ok_inv hq
    rw [← hpid]
    simp [hr]
  · simp at hid
    subst hid
    simp [h2]

theorem variableSetId_ok_lookup {m : IdMap} {v v' : Variable} (h : variableSetId m v = .ok v') :
    ∀ id ∈ variableRefIds v, (m id).isSome := by
  obtain ⟨nt, tst, tet, sc, h1, h2, h3, h4, _⟩ := variableSetId_ok_inv h
  intro id hid
  unfold variableRefIds at hid
  simp at hid
  rcases hid with rfl | rfl | rfl | rfl <;> simp [h1, h2, h3, h4]

theorem set_id_map_ok_inv {cfg : Configuration} {arguments : List Variable}
    {c' : Configuration} {args' : List Variable}
    (h : set_id_map cfg arguments = .ok (c', args')) :
    ∃ toks scps fns vars args,
      mapE (tokenSetId (buildIdMap cfg arguments)) cfg.tokenlist = .ok toks ∧
      mapE (scopeSetId (buildIdMap cfg arguments)) cfg.scopes = .ok scps ∧
      mapE (functionSetId (buildIdMap cfg arguments)) cfg.functions = .ok fns ∧
      mapE (variableSetId (buildIdMap cfg arguments)) cfg.variablesList = .ok vars ∧
      mapE (variableSetId (buildIdMap cfg arguments)) arguments = .ok args ∧
      c' = { cfg with tokenlist := toks, scopes := scps,
                      functions := fns, variablesList := vars } ∧
      args' = args := by
  unfold set_id_map at h
  obtain ⟨toks, h1, h⟩ := exBind_ok h
  obtain ⟨scps, h2, h⟩ := exBind_ok h
  obtain ⟨fns, h3, h⟩ := exBind_ok h
  obtain ⟨vars, h4, h⟩ := exBind_ok h
  obtain ⟨args, h5, h⟩ := exBind_ok h
  injection h with h
  injection h with hc ha
  exact ⟨toks, scps, fns, vars, args, h1, h2, h3, h4, h5, hc.symm, ha.symm⟩

/-- Claim C2: when no record of the configuration or of the argument bag
issues a reserved or absent identifier, every relational identifier
attribute that is absent or equal to a reserved all-zero identifier string
of any declared width is present in the lookup table and mapped to the
null reference, so resolution sets the corresponding reference field to
null without error; in particular a token whose scope attribute is absent
or reserved gets scope = null. -/
theorem c2_reserved_resolve_null (cfg : Configuration) (arguments : List Variable)
    (hgood : ∀ id ∈ configIssuedIds cfg arguments, id ∉ reservedKeys) :
    (∀ k ∈ reservedKeys, buildIdMap cfg arguments k = some none) ∧
    (∀ t t', t.scopeId ∈ reservedKeys →
      tokenSetId (buildIdMap cfg arguments) t = .ok t' → t'.scope = none) := by
  have hres : ∀ k ∈ reservedKeys, buildIdMap cfg arguments k = some none := by
    intro k hk
    have hni : ∀ (l : List (Option String)),
        (∀ x ∈ l, x ∈ configIssuedIds cfg arguments) → k ∉ l := by
      intro l hl hc
      exact hgood k (hl k hc) hk
    have h1 : k ∉ cfg.tokenlist.map (fun t => t.Id) := by
      apply hni; intro x hx
      unfold configIssuedIds; simp only [List.mem_append]; tauto
    have h2 : k ∉ cfg.scopes.map (fun s => s.Id) := by
      apply hni; intro x hx
      unfold configIssuedIds; simp only [List.mem_append]; tauto
    have h3 : k ∉ cfg.functions.map (fun f => f.Id) := by
      apply hni; intro x hx
      unfold configIssuedIds; simp only [List.mem_append]; tauto
    have h4 : k ∉ cfg.variablesList.map (fun v => v.Id) := by
      apply hni; intro x hx
      unfold configIssuedIds; simp only [List.mem_append]; tauto
    have h5 : k ∉ arguments.map (fun v => v.Id) := by
      apply hni; intro x hx
      unfold configIssuedIds; simp only [List.mem_append]; tauto
    have h6 : k ∉ cfg.valueflow.map (fun v => v.Id) := by
      apply hni; intro x hx
      unfold configIssuedIds; simp only [List.mem_append]; tauto
    unfold buildIdMap
    rw [insertIdsAux_not_mem Ref.vals _ 0 _ k h6,
        insertIdsAux_not_mem Ref.arg _ 0 _ k h5,
        insertIdsAux_not_mem Ref.var _ 0 _ k h4,
        insertIdsAux_not_mem Ref.fn _ 0 _ k h3,
        insertIdsAux_not_mem Ref.scp _ 0 _ k h2,
        insertIdsAux_not_mem Ref.tok _ 0 _ k h1]
    simp only [reservedKeys, List.mem_cons, List.mem_singleton] at hk
    rcases hk with rfl | rfl | rfl | hk
    · rfl
    · rfl
    · rfl
    · simp at hk; rw [hk]; rfl
  refine ⟨hres, ?_⟩
  intro t t' hks hok
  obtain ⟨sc, li, va, fu, vl, tsc, ap, a1, a2, vt, h1, _, _, _, _, _, _, _, _, _, ht'⟩ :=
    tokenSetId_ok_inv hok
  have hn := hres t.scopeId hks
  rw [h1] at hn
  injection hn with hn
  rw [ht', hn]

def c2ExampleCfg : Configuration :=
  { baseConfiguration with tokenlist := [{ baseToken with Id := some "11" }] }

/-- Witness for C2: a wide reserved zero identifier resolves to null in a
concrete configuration. -/
theorem c2_witness : buildIdMap c2ExampleCfg [] (some "00000000") = some none :=
  (c2_reserved_resolve_null c2ExampleCfg [] (by decide)).1 (some "00000000") (by decide)

/-- Boolean success test for Except results. -/
def isOkB {α : Type} : Except String α → Bool
  | .ok _ => true
  | .error _ => false

/-- Claim C3: an identifier string carried by some relational attribute of
some record but missing from the configuration lookup table makes
set_id_map fail with a surfaced error instead of silently nulling the
reference. -/
theorem c3_unknown_id_raises (cfg : Configuration) (arguments : List Variable)
    (r : Option String) (hr : r ∈ configRefIds cfg arguments)
    (hmiss : buildIdMap cfg arguments r = none) :
    ∃ e, set_id_map cfg arguments = .error e := by
  cases hres : set_id_map cfg arguments with
  | error e => exact ⟨e, rfl⟩
  | ok pr =>
    exfalso
    obtain ⟨c', args'⟩ := pr
    obtain ⟨toks, scps, fns, vars, args, h1, h2, h3, h4, h5, _, _⟩ := set_id_map_ok_inv hres
    unfold configRefIds at hr
    rcases List.mem_append.mp hr with hr | h
    · rcases List.mem_append.mp hr with hr | h
      · rcases List.mem_append.mp hr with hr | h
        · rcases List.mem_append.mp hr with h | h
          · obtain ⟨t, ht, hid⟩ := List.mem_flatMap.mp h
            obtain ⟨t', hok⟩ := mapE_ok_forall h1 t ht
            have hsome := tokenSetId_ok_lookup hok r hid
            rw [hmiss] at hsome; simp at hsome
          · obtain ⟨s, hs, hid⟩ := List.mem_flatMap.mp h
            obtain ⟨s', hok⟩ := mapE_ok_forall h2 s hs
            have hsome := scopeSetId_ok_lookup hok r hid
            rw [hmiss] at hsome; simp at hsome
        · obtain ⟨f, hf, hid⟩ := List.mem_flatMap.mp h
          obtain ⟨f', hok⟩ := mapE_ok_forall h3 f hf
          have hsome := functionSetId_ok_lookup hok r hid
          rw [hmiss] at hsome; simp at hsome
      · obtain ⟨v, hv, hid⟩ := List.mem_flatMap.mp h
        obtain ⟨v', hok⟩ := mapE_ok_forall h4 v hv
        have hsome := variableSetId_ok_lookup hok r hid
        rw [hmiss] at hsome; simp at hsome
    · obtain ⟨v, hv, hid⟩ := List.mem_flatMap.mp h
      obtain ⟨v', hok⟩ := mapE_ok_forall h5 v hv
      have hsome := variableSetId_ok_lookup hok r hid
      rw [hmiss] at hsome; simp at hsome

def c3ExampleCfg : Configuration :=
  { baseConfiguration with
    tokenlist := [{ baseToken with Id := some "1", scopeId := some "zz" }] }

/-- Witness for C3: a token whose scope attribute names an identifier not
present in the table makes resolution fail. -/
theorem c3_witness : isOkB (set_id_map c3ExampleCfg []) = false := by
  obtain ⟨e, he⟩ := c3_unknown_id_raises c3ExampleCfg [] (some "zz") (by decide) (by decide)
  rw [he]
  rfl

theorem mapE_ok_getElem {α β : Type} {f : α → Except String β} :
    ∀ {xs : List α} {ys : List β}, mapE f xs = .ok ys →
    ∀ (k : Nat) (x : α), xs[k]? = some x → ∃ y, ys[k]? = some y ∧ f x = .ok y := by
  intro xs
  induction xs with
  | nil => intro ys _ k x hx; simp at hx
  | cons a as ih =>
    intro ys h k x hx
    unfold mapE at h
    cases hfa : f a with
    | error e => rw [hfa] at h; simp at h
    | ok y =>
      rw [hfa] at h
      cases hrest : mapE f as with
      | error e => rw [hrest] at h; simp at h
      | ok ys' =>
        rw [hrest] at h
        injection h with h
        cases k with
        | zero =>
          simp at hx
          subst hx
          refine ⟨y, ?_, hfa⟩
          rw [← h]
          simp
        | succ k =>
          simp at hx
          obtain ⟨y', hy', hfy⟩ := ih hrest k x hx
          refine ⟨y', ?_, hfy⟩
          rw [← h]
          simpa using hy'

/-- Claim C5: an argument variable that sits in the carried argument bag
(at position i, with identifier vid) and is named by position k of a
function argumentId is resolved by set_id_map so that the function
argument entry at position k holds the reference to that variable, even
though the variable record never entered the configuration variable list:
the table is built from all record lists, the argument bag included,
before any record is rewritten.  The identifier must not be re-issued
later in the bag nor by a valueflow record, since later table insertions
overwrite earlier ones. -/
theorem c5_forward_argument_resolution
    (cfg : Configuration) (arguments : List Variable)
    (i : Nat) (v : Variable) (vid : String)
    (hv : arguments[i]? = some v) (hvid : v.Id = some vid)
    (hlater : ∀ q, i < q → ∀ w, arguments[q]? = some w → w.Id ≠ some vid)
    (hvf : ∀ vf ∈ cfg.valueflow, vf.Id ≠ some vid)
    (fi : Nat) (f : Function) (hf : cfg.functions[fi]? = some f)
    (k : Nat) (nr : Nat) (hk : f.argumentId[k]? = some (nr, some vid))
    (c' : Configuration) (args' : List Variable)
    (hok : set_id_map cfg arguments = .ok (c', args')) :
    ∃ f' v', c'.functions[fi]? = some f' ∧
      f'.argument[k]? = some (nr, some (Ref.arg i)) ∧
      args'[i]? = some v' ∧ v'.Id = some vid := by
  have hlook : buildIdMap cfg arguments (some vid) = some (some (Ref.arg i)) := by
    have hnotvf : some vid ∉ cfg.valueflow.map (fun w => w.Id) := by
      intro hc
      obtain ⟨vf, hin, hid⟩ := List.mem_map.mp hc
      exact hvf vf hin hid
    have hargp : (arguments.map (fun w => w.Id))[i]? = some (some vid) := by
      rw [List.getElem?_map, hv]
      simp [hvid]
    have hargq : ∀ q, i < q → (arguments.map (fun w => w.Id))[q]? ≠ some (some vid) := by
      intro q hq hc
      rw [List.getElem?_map] at hc
      obtain ⟨w, hw, hwid⟩ := Option.map_eq_some'.mp hc
      exact hlater q hq w hw hwid
    unfold buildIdMap
    rw [insertIdsAux_not_mem Ref.vals _ 0 _ _ hnotvf,
        insertIdsAux_last_occurrence Ref.arg _ 0 i _ _ hargp hargq]
    simp
  obtain ⟨toks, scps, fns, vars, args, h1, h2, h3, h4, h5, hc', hargs'⟩ :=
    set_id_map_ok_inv hok
  obtain ⟨f', hf', hfok⟩ := mapE_ok_getElem h3 fi f hf
  obtain ⟨argl, td, hargl, htd, hfeq⟩ := functionSetId_ok_inv hfok
  obtain ⟨entry, hentry, hargok⟩ := mapE_ok_getElem hargl k (nr, some vid) hk
  obtain ⟨rref, hrref, hentryeq⟩ := argSetId_ok_inv hargok
  obtain ⟨v', hv', hvok⟩ := mapE_ok_getElem h5 i v hv
  obtain ⟨nt, tst, tet, sc, _, _, _, _, hveq⟩ := variableSetId_ok_inv hvok
  refine ⟨f', v', ?_, ?_, ?_, ?_⟩
  · rw [hc']; simpa using hf'
  · rw [hfeq]
    simp only
    rw [hentry, hentryeq]
    simp at hrref
    rw [hlook] at hrref
    injection hrref with hrref
    rw [← hrref]
  · rw [hargs']; exact hv'
  · rw [hveq]
    simpa using hvid

/-- Variable value with every field at the class-attribute default, used
for concrete example configurations. -/
def baseVariable : Variable :=
  { Id := none, nameTokenId := none, nameToken := none,
    typeStartTokenId := none, typeStartToken := none,
    typeEndTokenId := none, typeEndToken := none, access := none,
    scopeId := none, scope := none, isArgument := false, isArray := false,
    isClass := false, isConst := false, isExtern := false, isGlobal := false,
    isLocal := false, isPointer := false, isReference := false,
    isStatic := false, constness := none }

/-- Function value with every field at the class-attribute default, used
for concrete example configurations. -/
def baseFunction : Function :=
  { Id := none, tokenDefId := none, tokenDef := none, name := none,
    type := none, isVirtual := false, isImplicitlyVirtual := false,
    isStatic := false, argument := [], argumentId := [] }

def c5Var : Variable := { baseVariable with Id := some "5", isArgument := true }

def c5Cfg : Configuration :=
  { baseConfiguration with
    functions := [{ baseFunction with Id := some "9", argumentId := [(1, some "5")] }] }

/-- Witness for C5: in a concrete configuration whose single function
names the bag variable with identifier 5 as argument 1, resolution maps
the argument entry to the bag reference. -/
theorem c5_witness :
    ((set_id_map c5Cfg [c5Var]).toOption.bind
      (fun p => p.1.functions[0]?.bind (fun f' => f'.argument[0]?)))
      = some (1, some (Ref.arg 0)) := by
  cases hres : set_id_map c5Cfg [c5Var] with
  | error e =>
    have hok : isOkB (set_id_map c5Cfg [c5Var]) = true := by decide
    rw [hres] at hok
    simp [isOkB] at hok
  | ok pr =>
    obtain ⟨c', args'⟩ := pr
    obtain ⟨f', v', hf', hfa, _, _⟩ :=
      c5_forward_argument_resolution c5Cfg [c5Var] 0 c5Var "5"
        (by decide) (by decide)
        (by
          intro q hq w hw
          rw [List.getElem?_eq_none (by simp; omega)] at hw
          simp at hw)
        (by intro vf h; simp [c5Cfg, baseConfiguration] at h)
        0 { baseFunction with Id := some "9", argumentId := [(1, some "5")] }
        (by decide) 0 1 (by decide) c' args' hres
    have h0 : (Except.ok (c', args') :
        Except String (Configuration × List Variable)).toOption = some (c', args') := rfl
    rw [h0]
    have hb : (some (c', args')).bind
        (fun p => p.1.functions[0]?.bind (fun f2 => f2.argument[0]?))
        = c'.functions[0]?.bind (fun f2 => f2.argument[0]?) := rfl
    rw [hb, hf']
    have hb2 : (some f').bind (fun f2 => f2.argument[0]?) = f'.argument[0]? := rfl
    rw [hb2, hfa]

theorem mapE_ok_length {α β : Type} {f : α → Except String β} :
    ∀ {xs : List α} {ys : List β}, mapE f xs = .ok ys → ys.length = xs.length := by
  intro xs
  induction xs with
  | nil => intro ys h; unfold mapE at h; injection h with h; simp [← h]
  | cons a as ih =>
    intro ys h
    unfold mapE at h
    cases hfa : f a with
    | error e => rw [hfa] at h; simp at h
    | ok y =>
      rw [hfa] at h
      cases hrest : mapE f as with
      | error e => rw [hrest] at h; simp at h
      | ok ys' =>
        rw [hrest] at h
        injection h with h
        rw [← h]
        simp [ih hrest]

theorem mapE_map_eq {α γ : Type} {f : α → Except String α} {g : α → γ}
    (hg : ∀ x y, f x = .ok y → g y = g x) :
    ∀ {xs ys : List α}, mapE f xs = .ok ys → ys.map g = xs.map g := by
  intro xs
  induction xs with
  | nil => intro ys h; unfold mapE at h; injection h with h; simp [← h]
  | cons a as ih =>
    intro ys h
    unfold mapE at h
    cases hfa : f a with
    | error e => rw [hfa] at h; simp at h
    | ok y =>
      rw [hfa] at h
      cases hrest : mapE f as with
      | error e => rw [hrest] at h; simp at h
      | ok ys' =>
        rw [hrest] at h
        injection h with h
        rw [← h]
        simp [hg a y hfa, ih hrest]

theorem mapE_idem {α : Type} {f : α → Except String α}
    (hstab : ∀ x y, f x = .ok y → f y = .ok y) :
    ∀ {xs ys : List α}, mapE f xs = .ok ys → mapE f ys = .ok ys := by
  intro xs
  induction xs with
  | nil => intro ys h; unfold mapE at h; injection h with h; simp [← h, mapE]
  | cons a as ih =>
    intro ys h
    unfold mapE at h
    cases hfa : f a with
    | error e => rw [hfa] at h; simp at h
    | ok y =>
      rw [hfa] at h
      cases hrest : mapE f as with
      | error e => rw [hrest] at h; simp at h
      | ok ys' =>
        rw [hrest] at h
        injection h with h
        rw [← h]
        unfold mapE
        rw [hstab a y hfa, ih hrest]

theorem resolveVT_idem {m : IdMap} {o o' : Option ValueType}
    (h : resolveVT m o = some o') : resolveVT m o' = some o' := by
  cases o with
  | none =>
    unfold resolveVT at h
    injection h with h
    rw [← h]
    rfl
  | some vt =>
    unfold resolveVT at h
    obtain ⟨ts0, hts, he⟩ := Option.map_eq_some'.mp h
    rw [← he]
    simp [resolveVT, hts]

theorem tokenSetId_idem {m : IdMap} {t t' : Token} (h : tokenSetId m t = .ok t') :
    tokenSetId m t' = .ok t' := by
  obtain ⟨sc, li, va, fu, vl, tsc, ap, a1, a2, vt,
    h1, h2, h3, h4, h5, h6, h7, h8, h9, h10, ht'⟩ := tokenSetId_ok_inv h
  have e1 : t'.scopeId = t.scopeId := by rw [ht']
  have e2 : t'.linkId = t.linkId := by rw [ht']
  have e3 : t'.variableId = t.variableId := by rw [ht']
  have e4 : t'.functionId = t.functionId := by rw [ht']
  have e5 : t'.valuesId = t.valuesId := by rw [ht']
  have e6 : t'.typeScopeId = t.typeScopeId := by rw [ht']
  have e7 : t'.astParentId = t.astParentId := by rw [ht']
  have e8 : t'.astOperand1Id = t.astOperand1Id := by rw [ht']
  have e9 : t'.astOperand2Id = t.astOperand2Id := by rw [ht']
  have e10 : t'.valueType = vt := by rw [ht']
  unfold tokenSetId
  rw [e1, e2, e3, e4, e5, e6, e7, e8, e9, e10,
      h1, h2, h3, h4, h5, h6, h7, h8, h9, resolveVT_idem h10]
  rw [ht']

theorem scopeSetId_idem {m : IdMap} {s s' : Scope} (h : scopeSetId m s = .ok s') :
    scopeSetId m s' = .ok s' := by
  obtain ⟨bs, be, ni, fu, h1, h2, h3, h4, hs'⟩ := scopeSetId_ok_inv h
  have e1 : s'.bodyStartId = s.bodyStartId := by rw [hs']
  have e2 : s'.bodyEndId = s.bodyEndId := by rw [hs']
  have e3 : s'.nestedInId = s.nestedInId := by rw [hs']
  have e4 : s'.functionId = s.functionId := by rw [hs']
  unfold scopeSetId
  rw [e1, e2, e3, e4, h1, h2, h3, h4]
  rw [hs']

theorem functionSetId_idem {m : IdMap} {f f' : Function} (h : functionSetId m f = .ok f') :
    functionSetId m f' = .ok f' := by
  obtain ⟨args, td, h1, h2, hf'⟩ := functionSetId_ok_inv h
  have e1 : f'.argumentId = f.argumentId := by rw [hf']
  have e2 : f'.tokenDefId = f.tokenDefId := by rw [hf']
  unfold functionSetId
  rw [e1, e2, h1, h2]
  rw [hf']

theorem variableSetId_idem {m : IdMap} {v v' : Variable} (h : variableSetId m v = .ok v') :
    variableSetId m v' = .ok v' := by
  obtain ⟨nt, tst, tet, sc, h1, h2, h3, h4, hv'⟩ := variableSetId_ok_inv h
  have e1 : v'.nameTokenId = v.nameTokenId := by rw [hv']
  have e2 : v'.typeStartTokenId = v.typeStartTokenId := by rw [hv']
  have e3 : v'.typeEndTokenId = v.typeEndTokenId := by rw [hv']
  have e4 : v'.scopeId = v.scopeId := by rw [hv']
  unfold variableSetId
  rw [e1, e2, e3, e4, h1, h2, h3, h4]
  rw [hv']

theorem tokenSetId_raw {m : IdMap} {t t' : Token} (h : tokenSetId m t = .ok t') :
    t'.Id = t.Id ∧ t'.next = t.next ∧ t'.previous = t.previous := by
  obtain ⟨sc, li, va, fu, vl, tsc, ap, a1, a2, vt,
    _, _, _, _, _, _, _, _, _, _, ht'⟩ := tokenSetId_ok_inv h
  rw [ht']
  exact ⟨rfl, rfl, rfl⟩

theorem scopeSetId_Id {m : IdMap} {s s' : Scope} (h : scopeSetId m s = .ok s') :
    s'.Id = s.Id := by
  obtain ⟨bs, be, ni, fu, _, _, _, _, hs'⟩ := scopeSetId_ok_inv h
  rw [hs']

theorem functionSetId_Id {m : IdMap} {f f' : Function} (h : functionSetId m f = .ok f') :
    f'.Id = f.Id := by
  obtain ⟨args, td, _, _, hf'⟩ := functionSetId_ok_inv h
  rw [hf']

theorem variableSetId_Id {m : IdMap} {v v' : Variable} (h : variableSetId m v = .ok v') :
    v'.Id = v.Id := by
  obtain ⟨nt, tst, tet, sc, _, _, _, _, hv'⟩ := variableSetId_ok_inv h
  rw [hv']

theorem set_tokens_links_spec (ts : List Token) (j : Nat) (t : Token)
    (h : (set_tokens_links ts)[j]? = some t) :
    t.previous = (if j = 0 then none else some (j - 1)) ∧
    (j + 1 < ts.length → t.next = some (j + 1)) := by
  rw [set_tokens_links_getElem] at h
  obtain ⟨t0, ht0, he⟩ := Option.map_eq_some'.mp h
  constructor
  · rw [← he]
  · intro hlt
    rw [← he]
    simp [hlt]

theorem set_tokens_links_fix (ts : List Token)
    (hprev : ∀ (i : Nat) (t : Token), ts[i]? = some t →
      t.previous = if i = 0 then none else some (i - 1))
    (hnext : ∀ (i : Nat) (t : Token), ts[i]? = some t →
      i + 1 < ts.length → t.next = some (i + 1)) :
    set_tokens_links ts = ts := by
  apply List.ext_getElem?
  intro j
  rw [set_tokens_links_getElem]
  cases hj : ts[j]? with
  | none => rfl
  | some t =>
    have hp := hprev j t hj
    rw [Option.map_some']
    rw [← hp]
    by_cases hlt : j + 1 < ts.length
    · rw [if_pos hlt, ← hnext j t hj hlt]
    · rw [if_neg hlt]

/-- Introduction form of set_id_map: when every rewriting loop succeeds,
set_id_map returns the rebuilt configuration. -/
theorem set_id_map_ok_intro (cfg : Configuration) (arguments : List Variable)
    (toks : List Token) (scps : List Scope) (fns : List Function)
    (vars args : List Variable)
    (h1 : mapE (tokenSetId (buildIdMap cfg arguments)) cfg.tokenlist = .ok toks)
    (h2 : mapE (scopeSetId (buildIdMap cfg arguments)) cfg.scopes = .ok scps)
    (h3 : mapE (functionSetId (buildIdMap cfg arguments)) cfg.functions = .ok fns)
    (h4 : mapE (variableSetId (buildIdMap cfg arguments)) cfg.variablesList = .ok vars)
    (h5 : mapE (variableSetId (buildIdMap cfg arguments)) arguments = .ok args) :
    set_id_map cfg arguments =
      .ok ({ cfg with tokenlist := toks, scopes := scps,
                      functions := fns, variablesList := vars }, args) := by
  simp only [set_id_map]
  rw [h1, h2, h3, h4, h5]
  rfl

/-- Claim C6: resolution is idempotent.  If setIdMap on a configuration
and its argument bag succeeds, running setIdMap again on the resolved
configuration and resolved bag succeeds and changes nothing: the token
links are already in place, the raw identifier attributes are untouched by
resolution, so the rebuilt lookup table and every rewritten field coincide
with the first run. -/
theorem c6_setIdMap_idempotent (cfg : Configuration) (arguments : List Variable)
    (c1 : Configuration) (a1 : List Variable)
    (h : setIdMap cfg arguments = .ok (c1, a1)) :
    setIdMap c1 a1 = .ok (c1, a1) := by
  unfold setIdMap at h
  obtain ⟨toks, scps, fns, vars, args, h1, h2, h3, h4, h5, hc1, ha1⟩ := set_id_map_ok_inv h
  subst hc1
  rw [ha1]
  set cfgL : Configuration := { cfg with tokenlist := set_tokens_links cfg.tokenlist } with hcfgL
  -- the resolved token list still satisfies the link discipline
  have hlenL : cfgL.tokenlist.length = cfg.tokenlist.length := set_tokens_links_length _
  have hlenT : toks.length = cfgL.tokenlist.length := mapE_ok_length h1
  have htoks_spec : ∀ (j : Nat) (t' : Token), toks[j]? = some t' →
      t'.previous = (if j = 0 then none else some (j - 1)) ∧
      (j + 1 < toks.length → t'.next = some (j + 1)) := by
    intro j t' hj
    have hjlt : j < toks.length := by
      by_contra hc
      rw [List.getElem?_eq_none (by omega)] at hj
      simp at hj
    have hjL : j < cfgL.tokenlist.length := by omega
    have hx : cfgL.tokenlist[j]? = some (cfgL.tokenlist[j]) := List.getElem?_eq_getElem hjL
    obtain ⟨y, hy, hok⟩ := mapE_ok_getElem h1 j _ hx
    have hyt : y = t' := by
      rw [hy] at hj
      injection hj
    subst hyt
    obtain ⟨_, hnext, hprev⟩ := tokenSetId_raw hok
    have hspec := set_tokens_links_spec cfg.tokenlist j _ hx
    refine ⟨?_, ?_⟩
    · rw [hprev]; exact hspec.1
    · intro hlt
      rw [hnext]
      exact hspec.2 (by omega)
  have hfix : set_tokens_links toks = toks := by
    apply set_tokens_links_fix
    · intro i t ht; exact (htoks_spec i t ht).1
    · intro i t ht hlt; exact (htoks_spec i t ht).2 hlt
  -- the rebuilt lookup table is the table of the first run
  have hTok : toks.map (fun t => t.Id) = cfgL.tokenlist.map (fun t => t.Id) :=
    mapE_map_eq (fun x y hxy => (tokenSetId_raw hxy).1) h1
  have hScp : scps.map (fun s => s.Id) = cfgL.scopes.map (fun s => s.Id) :=
    mapE_map_eq (fun x y hxy => scopeSetId_Id hxy) h2
  have hFn : fns.map (fun f => f.Id) = cfgL.functions.map (fun f => f.Id) :=
    mapE_map_eq (fun x y hxy => functionSetId_Id hxy) h3
  have hVar : vars.map (fun v => v.Id) = cfgL.variablesList.map (fun v => v.Id) :=
    mapE_map_eq (fun x y hxy => variableSetId_Id hxy) h4
  have hArg : args.map (fun v => v.Id) = arguments.map (fun v => v.Id) :=
    mapE_map_eq (fun x y hxy => variableSetId_Id hxy) h5
  set c1 : Configuration :=
    { cfgL with tokenlist := toks, scopes := scps,
                functions := fns, variablesList := vars } with hc1def
  have hmap : buildIdMap c1 args = buildIdMap cfgL arguments := by
    unfold buildIdMap
    have p1 : c1.tokenlist = toks := rfl
    have p2 : c1.scopes = scps := rfl
    have p3 : c1.functions = fns := rfl
    have p4 : c1.variablesList = vars := rfl
    have p5 : c1.valueflow = cfgL.valueflow := rfl
    rw [p1, p2, p3, p4, p5, hTok, hScp, hFn, hVar, hArg]
  -- second run
  unfold setIdMap
  have hstep : { c1 with tokenlist := set_tokens_links c1.tokenlist } = c1 := by
    have p1 : c1.tokenlist = toks := rfl
    rw [p1, hfix]
  rw [hstep]
  have g1 : mapE (tokenSetId (buildIdMap c1 args)) c1.tokenlist = .ok toks := by
    rw [hmap]
    exact mapE_idem (fun x y hxy => tokenSetId_idem hxy) h1
  have g2 : mapE (scopeSetId (buildIdMap c1 args)) c1.scopes = .ok scps := by
    rw [hmap]
    exact mapE_idem (fun x y hxy => scopeSetId_idem hxy) h2
  have g3 : mapE (functionSetId (buildIdMap c1 args)) c1.functions = .ok fns := by
    rw [hmap]
    exact mapE_idem (fun x y hxy => functionSetId_idem hxy) h3
  have g4 : mapE (variableSetId (buildIdMap c1 args)) c1.variablesList = .ok vars := by
    rw [hmap]
    exact mapE_idem (fun x y hxy => variableSetId_idem hxy) h4
  have g5 : mapE (variableSetId (buildIdMap c1 args)) args = .ok args := by
    rw [hmap]
    exact mapE_idem (fun x y hxy => variableSetId_idem hxy) h5
  have := set_id_map_ok_intro c1 args toks scps fns vars args g1 g2 g3 g4 g5
  rw [this]

def c6Cfg : Configuration :=
  { baseConfiguration with
    tokenlist := [{ baseToken with Id := some "1" }, { baseToken with Id := some "2" }] }

/-- Witness for C6: a concrete two-token configuration resolves, and
re-running setIdMap on the result reproduces exactly the first result. -/
theorem c6_witness :
    ((setIdMap c6Cfg []).toOption.bind (fun p => (setIdMap p.1 p.2).toOption))
      = (setIdMap c6Cfg []).toOption := by
  cases hres : setIdMap c6Cfg [] with
  | error e =>
    have hx : isOkB (setIdMap c6Cfg []) = true := by decide
    rw [hres] at hx
    simp [isOkB] at hx
  | ok pr =>
    obtain ⟨c1, a1⟩ := pr
    have h2 := c6_setIdMap_idempotent c6Cfg [] c1 a1 hres
    have e1 : (Except.ok (c1, a1) :
        Except String (Configuration × List Variable)).toOption = some (c1, a1) := rfl
    rw [e1]
    have e2 : (some (c1, a1)).bind
        (fun p : Configuration × List Variable => (setIdMap p.1 p.2).toOption)
        = (setIdMap c1 a1).toOption := rfl
    rw [e2, h2]
    rfl

/-- Model of the recurring constructor pattern
x = element.get(k); if x: x = int(x): an absent or empty attribute yields
no value, a truthy attribute must parse as an integer or the constructor
raises (outer none). -/
def optIntAttr (e : Attrs) (k : String) : Option (Option Int) :=
  match aget e k with
  | none => some none
  | some s => if s == "" then some none else (pyInt s).map some

/-- Model of the ValueType constructor pattern where a falsy attribute
leaves the class default 0 in place. -/
def intOr0 (e : Attrs) (k : String) : Option Int :=
  match aget e k with
  | none => some 0
  | some s => if s == "" then some 0 else pyInt s

/-- ValueType constructor (lines 60-77). -/
def valueTypeFromElement (e : Attrs) : Option ValueType := do
  let bits ← intOr0 e "valueType-bits"
  let constness ← intOr0 e "valueType-constness"
  let pointer ← intOr0 e "valueType-pointer"
  pure { type := aget e "valueType-type", sign := aget e "valueType-sign",
         bits := bits, typeScopeId := aget e "valueType-typeScope",
         typeScope := none,
         originalTypeName := aget e "valueType-originalTypeName",
         constness := constness, pointer := pointer }

/-- Token constructor (lines 194-255).  The classification flags encode
the type attribute dispatch with its nested elif chains; linenr and column
are required integer attributes. -/
def tokenFromElement (e : Attrs) : Option Token := do
  let linenr ← (aget e "linenr").bind pyInt
  let column ← (aget e "column").bind pyInt
  let ty := aget e "type"
  let strlen ← if ty == some "string" then ((aget e "strlen").bind pyInt).map some
               else some none
  let varId ← optIntAttr e "varId"
  let valueType ← if truthy (aget e "valueType-type") then (valueTypeFromElement e).map some
                  else some none
  pure {
    Id := aget e "id", str := aget e "str", next := none, previous := none,
    linkId := aget e "link", link := none,
    scopeId := aget e "scope", scope := none,
    isName := ty == some "name",
    isNumber := ty == some "number",
    isInt := ty == some "number" && truthy (aget e "isInt"),
    isFloat := ty == some "number" && !truthy (aget e "isInt") && truthy (aget e "isFloat"),
    isString := ty == some "string",
    strlen := strlen,
    isChar := ty == some "char",
    isOp := ty == some "op",
    isArithmeticalOp := ty == some "op" && truthy (aget e "isArithmeticalOp"),
    isAssignmentOp := ty == some "op" && !truthy (aget e "isArithmeticalOp") &&
      truthy (aget e "isAssignmentOp"),
    isComparisonOp := ty == some "op" && !truthy (aget e "isArithmeticalOp") &&
      !truthy (aget e "isAssignmentOp") && truthy (aget e "isComparisonOp"),
    isLogicalOp := ty == some "op" && !truthy (aget e "isArithmeticalOp") &&
      !truthy (aget e "isAssignmentOp") && !truthy (aget e "isComparisonOp") &&
      truthy (aget e "isLogicalOp"),
    isUnsigned := ty == some "name" && truthy (aget e "isUnsigned"),
    isSigned := ty == some "name" && truthy (aget e "isSigned"),
    isExpandedMacro := truthy (aget e "isExpandedMacro"),
    varId := varId,
    variableId := aget e "variable", variableRef := none,
    functionId := aget e "function", functionRef := none,
    valuesId := aget e "values", values := none,
    valueType := valueType,
    typeScopeId := aget e "type-scope", typeScope := none,
    astParentId := aget e "astParent", astParent := none,
    astOperand1Id := aget e "astOperand1", astOperand1 := none,
    astOperand2Id := aget e "astOperand2", astOperand2 := none,
    file := aget e "file", linenr := linenr, column := column }

/-- Variable constructor (lines 428-451). -/
def variableFromElement (e : Attrs) : Option Variable := do
  let constness ← optIntAttr e "constness"
  pure {
    Id := aget e "id",
    nameTokenId := aget e "nameToken", nameToken := none,
    typeStartTokenId := aget e "typeStartToken", typeStartToken := none,
    typeEndTokenId := aget e "typeEndToken", typeEndToken := none,
    access := aget e "access",
    scopeId := aget e "scope", scope := none,
    isArgument := aget e "isArgument" == some "true",
    isArray := aget e "isArray" == some "true",
    isClass := aget e "isClass" == some "true",
    isConst := aget e "isConst" == some "true",
    isExtern := aget e "isExtern" == some "true",
    isGlobal := aget e "access" == some "Global",
    isLocal := aget e "isLocal" == some "true",
    isPointer := aget e "isPointer" == some "true",
    isReference := aget e "isReference" == some "true",
    isStatic := aget e "isStatic" == some "true",
    constness := constness }

/-- Value constructor (lines 488-503): intvalue and condition-line are
int-parsed when truthy; tokvalue, floatvalue and container-size are
stored raw; the value kind comes from the known/possible flags. -/
def valueFromElement (e : Attrs) : Option Value := do
  let intvalue ← optIntAttr e "intvalue"
  let condition ← optIntAttr e "condition-line"
  pure {
    intvalue := intvalue,
    tokvalue := aget e "tokvalue",
    floatvalue := aget e "floatvalue",
    containerSize := aget e "container-size",
    condition := condition,
    valueKind := if truthy (aget e "known") then some "known"
                 else if truthy (aget e "possible") then some "possible"
                 else none,
    inconclusive := truthy (aget e "inconclusive") }

/-- Suppression constructor (lines 543-547). -/
def suppressionFromElement (e : Attrs) : Suppression :=
  { errorId := aget e "errorId", fileName := aget e "fileName",
    lineNumber := aget e "lineNumber", symbolName := aget e "symbolName" }

/-- Platform constructor (lines 660-667). -/
def platformFromElement (e : Attrs) : Option Platform := do
  let char_bit ← (aget e "char_bit").bind pyInt
  let short_bit ← (aget e "short_bit").bind pyInt
  let int_bit ← (aget e "int_bit").bind pyInt
  let long_bit ← (aget e "long_bit").bind pyInt
  let long_long_bit ← (aget e "long_long_bit").bind pyInt
  let pointer_bit ← (aget e "pointer_bit").bind pyInt
  pure { name := aget e "name", char_bit := char_bit, short_bit := short_bit,
         int_bit := int_bit, long_bit := long_bit,
         long_long_bit := long_long_bit, pointer_bit := pointer_bit }

/-- The var branch of iterconfigurations (lines 853-858): build the
Variable from the element; a populated nameToken attribute routes the
record to the configuration variable list; otherwise, outside the varlist
listing, it is accumulated in the function-argument bag, and inside the
listing it is dropped.  iter_varlist is the context flag of lines
829-833, true exactly while the reader is inside a varlist element. -/
def processVarElement (iter_varlist : Bool) (e : Attrs)
    (variablesAcc cfg_arguments : List Variable) :
    Option (List Variable × List Variable) :=
  (variableFromElement e).map (fun var =>
    if truthy var.nameTokenId then (variablesAcc ++ [var], cfg_arguments)
    else if !iter_varlist then (variablesAcc, cfg_arguments ++ [var])
    else (variablesAcc, cfg_arguments))

def c1Attrs : Attrs := [("id", "7"), ("nameToken", "t1")]

/-- Counterexample to C1 as stated: the varlist context flag does not
prevent a var element inside the informational listing from being routed
to the configuration variable list.  Here the reader is inside the
listing (flag true) and the element has a populated name-token
identifier, yet the record is appended to the variable list. -/
theorem c1_counterexample :
    (processVarElement true c1Attrs [] []).map
      (fun p => (p.1.map (fun v => v.nameTokenId), p.2.length))
      = some ([some "t1"], 0) := by decide

/-- Claim C1 (amended): a var element with a populated name-token
identifier is appended to the configuration variable list regardless of
the varlist flag; one without a populated name-token identifier is
appended to the function-argument bag when the reader is outside the
informational listing, and is dropped (the flag prevents the argument-bag
routing, not the variable-list routing) when inside it. -/
theorem c1_var_routing (iter_varlist : Bool) (e : Attrs)
    (variablesAcc cfg_arguments : List Variable) (v : Variable)
    (hv : variableFromElement e = some v) :
    (truthy v.nameTokenId = true →
      processVarElement iter_varlist e variablesAcc cfg_arguments
        = some (variablesAcc ++ [v], cfg_arguments)) ∧
    (truthy v.nameTokenId = false → iter_varlist = false →
      processVarElement iter_varlist e variablesAcc cfg_arguments
        = some (variablesAcc, cfg_arguments ++ [v])) ∧
    (truthy v.nameTokenId = false → iter_varlist = true →
      processVarElement iter_varlist e variablesAcc cfg_arguments
        = some (variablesAcc, cfg_arguments)) := by
  unfold processVarElement
  rw [hv]
  refine ⟨?_, ?_, ?_⟩
  · intro ht; simp [ht]
  · intro ht hf; subst hf; simp [ht]
  · intro ht hf; subst hf; simp [ht]

def c1ArgAttrs : Attrs := [("id", "8")]

/-- Witness for C1: a var element without a name-token identifier, seen
outside the varlist listing, lands in the argument bag. -/
theorem c1_witness :
    processVarElement false c1ArgAttrs [] []
      = some ([], [{ baseVariable with Id := some "8" }]) :=
  (c1_var_routing false c1ArgAttrs [] [] { baseVariable with Id := some "8" }
    (by decide)).2.1 (by decide) rfl

def c8Attrs : Attrs := [("floatvalue", "1.5"), ("container-size", "7"), ("known", "true")]

/-- Counterexample to C8 as stated: the Value constructor does not parse
the float payload or the container-size payload; both are kept as the
raw attribute strings (the fields hold strings, not numbers). -/
theorem c8_counterexample :
    (valueFromElement c8Attrs).map (fun v => (v.floatvalue, v.containerSize))
      = some (some "1.5", some "7") := by decide

/-- Claim C8 (amended): the Value constructor int-parses the integer
payload and the originating-condition line whenever the attributes are
present and nonempty, but carries the float payload and the
container-size payload as the raw attribute strings. -/
theorem c8_value_builder (e : Attrs) (v : Value) (hv : valueFromElement e = some v) :
    v.floatvalue = aget e "floatvalue" ∧
    v.containerSize = aget e "container-size" ∧
    (∀ s, aget e "intvalue" = some s → s ≠ "" →
      ∃ n : Int, pyInt s = some n ∧ v.intvalue = some n) ∧
    (∀ s, aget e "condition-line" = some s → s ≠ "" →
      ∃ n : Int, pyInt s = some n ∧ v.condition = some n) := by
  unfold valueFromElement at hv
  cases h1 : optIntAttr e "intvalue" with
  | none => rw [h1] at hv; simp at hv
  | some iv =>
    rw [h1] at hv
    cases h2 : optIntAttr e "condition-line" with
    | none => rw [h2] at hv; simp at hv
    | some cv =>
      rw [h2] at hv
      simp only [Bind.bind, Option.bind] at hv
      injection hv with hv
      refine ⟨?_, ?_, ?_, ?_⟩
      · rw [← hv]
      · rw [← hv]
      · intro s hs hne
        simp only [optIntAttr, hs] at h1
        rw [if_neg (by simpa using hne)] at h1
        obtain ⟨n, hn, hiv⟩ := Option.map_eq_some'.mp h1
        exact ⟨n, hn, by rw [← hv, ← hiv]⟩
      · intro s hs hne
        simp only [optIntAttr, hs] at h2
        rw [if_neg (by simpa using hne)] at h2
        obtain ⟨n, hn, hcv⟩ := Option.map_eq_some'.mp h2
        exact ⟨n, hn, by rw [← hv, ← hcv]⟩

def c8WAttrs : Attrs := [("intvalue", "42"), ("floatvalue", "2.5")]

def c8WVal : Value :=
  { intvalue := some 42, tokvalue := none, floatvalue := some "2.5",
    containerSize := none, condition := none, valueKind := none,
    inconclusive := false }

/-- Witness for C8: a concrete value element with a float payload keeps
the raw string. -/
theorem c8_witness : c8WVal.floatvalue = aget c8WAttrs "floatvalue" :=
  (c8_value_builder c8WAttrs c8WVal (by decide)).1

/-- Dereference of a resolved AST operand reference: Python follows the
object reference; only a token reference yields a token here. -/
def derefTok (cfg : Configuration) : Option Ref → Option Token
  | some (Ref.tok i) => cfg.tokenlist[i]?
  | _ => none

/-- getArgumentsRecursive (lines 880-887): a missing operand is ignored,
a comma token is flattened by recursing on its left then its right AST
operand into the shared accumulator, and any other token is appended.
The recursion follows AST operand references through the configuration
arena; the fuel argument bounds the recursion depth, which on the acyclic
ASTs the analyzer produces never exceeds the token count. -/
def getArgumentsRecursive (cfg : Configuration) :
    Nat → Option Token → List Token → List Token
  | _, none, arguments => arguments
  | 0, some _, arguments => arguments
  | fuel + 1, some tok, arguments =>
    if tok.str = some "," then
      getArgumentsRecursive cfg fuel (derefTok cfg tok.astOperand2)
        (getArgumentsRecursive cfg fuel (derefTok cfg tok.astOperand1) arguments)
    else arguments ++ [tok]

/-- getArguments (lines 890-895): None unless the token is a name token
directly followed by an opening parenthesis; otherwise the flattening of
the second AST operand of the parenthesis. -/
def getArguments (cfg : Configuration) (ftok : Token) : Option (List Token) :=
  if ftok.isName = false then none
  else
    match ftok.next.bind (fun j => cfg.tokenlist[j]?) with
    | none => none
    | some nt =>
      if nt.str ≠ some "(" then none
      else some (getArgumentsRecursive cfg cfg.tokenlist.length
        (derefTok cfg nt.astOperand2) [])

/-- Claim C10: getArguments returns None exactly when the token is not a
name token, has no successor, or its successor is not an opening
parenthesis; in all other cases it returns a list. -/
theorem c10_getArguments_none_iff (cfg : Configuration) (ftok : Token)
    (hwf : ∀ j, ftok.next = some j → j < cfg.tokenlist.length) :
    getArguments cfg ftok = none ↔
      (ftok.isName = false ∨ ftok.next = none ∨
        (∃ j nt, ftok.next = some j ∧ cfg.tokenlist[j]? = some nt ∧
          nt.str ≠ some "(")) := by
  unfold getArguments
  cases hn : ftok.isName with
  | false =>
    apply iff_of_true (by rw [if_pos rfl])
    exact Or.inl rfl
  | true =>
    rw [if_neg (by simp)]
    cases hnext : ftok.next with
    | none =>
      apply iff_of_true (by rfl)
      exact Or.inr (Or.inl rfl)
    | some j =>
      have hj : j < cfg.tokenlist.length := hwf j hnext
      have hnt : cfg.tokenlist[j]? = some (cfg.tokenlist[j]) := List.getElem?_eq_getElem hj
      rw [Option.some_bind, hnt]
      have hred : (match some (cfg.tokenlist[j]) with
          | none => none
          | some nt => if nt.str ≠ some "(" then none
              else some (getArgumentsRecursive cfg cfg.tokenlist.length
                (derefTok cfg nt.astOperand2) []))
          = (if (cfg.tokenlist[j]).str ≠ some "(" then none
              else some (getArgumentsRecursive cfg cfg.tokenlist.length
                (derefTok cfg (cfg.tokenlist[j]).astOperand2) [])) := rfl
      rw [hred]
      by_cases hstr : (cfg.tokenlist[j]).str = some "("
      · rw [if_neg (by simp [hstr])]
        apply iff_of_false (by simp)
        intro hc
        rcases hc with hc | hc | ⟨j', nt', hj', hnt', hs'⟩
        · simp at hc
        · simp at hc
        · injection hj' with hj'
          subst hj'
          rw [hnt] at hnt'
          injection hnt' with hnt'
          exact hs' (hnt' ▸ hstr)
      · rw [if_pos hstr]
        apply iff_of_true rfl
        exact Or.inr (Or.inr ⟨j, cfg.tokenlist[j], rfl, hnt, hstr⟩)


/-- Claim C9: in a resolved configuration containing the token shape
f ( a , b ) — a name token whose successor is the parenthesis, whose
second AST operand is the comma, whose operands are the non-comma tokens
a and b — getArguments on f returns the ordered list with a then b,
flattening the comma by left-to-right traversal. -/
theorem c9_getArguments_flattens (cfg : Configuration) (ftok : Token)
    (j k ia ib : Nat) (pt ct ta tb : Token)
    (hname : ftok.isName = true) (hnj : ftok.next = some j)
    (hpt : cfg.tokenlist[j]? = some pt) (hps : pt.str = some "(")
    (hpo : pt.astOperand2 = some (Ref.tok k))
    (hct : cfg.tokenlist[k]? = some ct) (hcs : ct.str = some ",")
    (hc1 : ct.astOperand1 = some (Ref.tok ia))
    (hta : cfg.tokenlist[ia]? = some ta) (htas : ta.str ≠ some ",")
    (hc2 : ct.astOperand2 = some (Ref.tok ib))
    (htb : cfg.tokenlist[ib]? = some tb) (htbs : tb.str ≠ some ",") :
    getArguments cfg ftok = some [ta, tb] := by
  have hjlt : j < cfg.tokenlist.length := by
    by_contra hc
    rw [List.getElem?_eq_none (by omega)] at hpt
    simp at hpt
  have hklt : k < cfg.tokenlist.length := by
    by_contra hc
    rw [List.getElem?_eq_none (by omega)] at hct
    simp at hct
  have hjk : j ≠ k := by
    intro hc
    subst hc
    rw [hpt] at hct
    injection hct with hct
    rw [← hct, hps] at hcs
    simp at hcs
  obtain ⟨m, hm⟩ : ∃ m, cfg.tokenlist.length = m + 2 :=
    ⟨cfg.tokenlist.length - 2, by omega⟩
  unfold getArguments
  rw [if_neg (by simp [hname])]
  rw [hnj, Option.some_bind, hpt]
  have hred : (match some pt with
      | none => none
      | some nt => if nt.str ≠ some "(" then none
          else some (getArgumentsRecursive cfg cfg.tokenlist.length
            (derefTok cfg nt.astOperand2) []))
      = (if pt.str ≠ some "(" then none
          else some (getArgumentsRecursive cfg cfg.tokenlist.length
            (derefTok cfg pt.astOperand2) [])) := rfl
  rw [hred, if_neg (by simp [hps])]
  congr 1
  rw [hpo, hm]
  have hdk : derefTok cfg (some (Ref.tok k)) = some ct := hct
  rw [hdk]
  have hda : derefTok cfg ct.astOperand1 = some ta := by rw [hc1]; exact hta
  have hdb : derefTok cfg ct.astOperand2 = some tb := by rw [hc2]; exact htb
  have hsta : getArgumentsRecursive cfg (m + 1) (some ta) [] = [ta] := by
    unfold getArgumentsRecursive
    rw [if_neg htas]
    rfl
  have hstb : getArgumentsRecursive cfg (m + 1) (some tb) [ta] = [ta, tb] := by
    unfold getArgumentsRecursive
    rw [if_neg htbs]
    rfl
  show getArgumentsRecursive cfg (m + 1 + 1) (some ct) [] = [ta, tb]
  unfold getArgumentsRecursive
  rw [if_pos hcs, hda, hdb, hsta, hstb]

def c9F : Token :=
  { baseToken with Id := some "1", str := some "f", isName := true, next := some 1 }

def c9P : Token :=
  { baseToken with Id := some "2", str := some "(", astOperand2 := some (Ref.tok 3) }

def c9A : Token := { baseToken with Id := some "3", str := some "a", isName := true }

def c9C : Token :=
  { baseToken with
    Id := some "4", str := some ",", isOp := true,
    astOperand1 := some (Ref.tok 2), astOperand2 := some (Ref.tok 4) }

def c9B : Token := { baseToken with Id := some "5", str := some "b", isName := true }

def c9Cfg : Configuration :=
  { baseConfiguration with tokenlist := [c9F, c9P, c9A, c9C, c9B] }

/-- Witness for C9 at the concrete token sequence f ( a , b ). -/
theorem c9_witness : getArguments c9Cfg c9F = some [c9A, c9B] :=
  c9_getArguments_flattens c9Cfg c9F 1 3 2 4 c9P c9C c9A c9B
    (by decide) (by decide) (by decide) (by decide) (by decide)
    (by decide) (by decide) (by decide) (by decide) (by decide)
    (by decide) (by decide) (by decide)

/-- Witness for C10: a non-name token yields None. -/
theorem c10_witness : getArguments baseConfiguration baseToken = none :=
  (c10_getArguments_none_iff baseConfiguration baseToken
    (by intro j h; simp [baseToken] at h)).mpr (Or.inl rfl)

/-- Children of the rawtokens element: file table entries and raw
tokens. -/
inductive RootChild : Type where
  | file (e : Attrs)
  | tok (e : Attrs)
  | other
deriving DecidableEq

/-- Top level elements of the dump document as seen by the bounded scan
of CppcheckData (lines 743-761): the platform element, the rawtokens
element with its children, the suppressions element with its children,
and anything else. -/
inductive RootItem : Type where
  | platform (e : Attrs)
  | rawtokens (children : List RootChild)
  | suppressions (children : List Attrs)
  | other
deriving DecidableEq

/-- Python negative-tolerant list indexing, as files[int(...)] uses. -/
def pyIndex {α : Type} (l : List α) (i : Int) : Option α :=
  if i < 0 then
    if (l.length : Int) + i < 0 then none else l[((l.length : Int) + i).toNat]?
  else l[i.toNat]?

/-- The class attributes of CppcheckData (lines 725-727): rawTokens and
suppressions are bound on the class, and the constructor only appends to
them, so every construction mutates this shared state. -/
structure CppcheckDataState where
  rawTokens : List Token
  suppressions : List Suppression
deriving DecidableEq

/-- What one constructed CppcheckData instance exposes. -/
structure CppcheckDataView where
  platform : Option Platform
  rawTokens : List Token
  suppressions : List Suppression
deriving DecidableEq

/-- The rawtokens handler (lines 750-756): file children extend the local
file table, tok children are built, given the file name at their
fileIndex, and appended to the shared rawTokens list. -/
def rawtokensLoop (files : List (Option String)) (acc : List Token) :
    List RootChild → Option (List (Option String) × List Token)
  | [] => some (files, acc)
  | RootChild.file e :: rest => rawtokensLoop (files ++ [aget e "name"]) acc rest
  | RootChild.tok e :: rest => do
      let t ← tokenFromElement e
      let idx ← (aget e "fileIndex").bind pyInt
      let fname ← pyIndex files idx
      rawtokensLoop files (acc ++ [{ t with file := fname }]) rest
  | RootChild.other :: rest => rawtokensLoop files acc rest

/-- The bounded prefix scan of CppcheckData (lines 743-761): the loop
stops, checking before each event, once platform, rawtokens and
suppressions have all been seen; each handler appends into the shared
class state or sets the platform. -/
def rootScan (st : CppcheckDataState) (plat : Option Platform)
    (files : List (Option String)) (pd rd sd : Bool) :
    List RootItem → Option (Option Platform × CppcheckDataState)
  | [] => some (plat, st)
  | item :: rest =>
    if pd && rd && sd then some (plat, st)
    else
      match item with
      | RootItem.platform e => do
          let p ← platformFromElement e
          rootScan st (some p) files true rd sd rest
      | RootItem.rawtokens cs =>
          match rawtokensLoop files st.rawTokens cs with
          | none => none
          | some (files2, toks) =>
              rootScan { st with rawTokens := toks } plat files2 pd true sd rest
      | RootItem.suppressions cs =>
          rootScan
            { st with suppressions := st.suppressions ++ cs.map suppressionFromElement }
            plat files pd rd true rest
      | RootItem.other => rootScan st plat files pd rd sd rest

/-- Index form of the raw token linking loop (lines 764-766): for every i
below length - 1, token i+1 gets previous = i and token i gets
next = i+1; the first previous and the last next are untouched. -/
def rawlinkAux (i n : Nat) : List Token → List Token
  | [] => []
  | t :: rest =>
      { t with
        previous := if i = 0 then t.previous else some (i - 1),
        next := if i + 1 < n then some (i + 1) else t.next }
        :: rawlinkAux (i + 1) n rest

def rawlink (ts : List Token) : List Token := rawlinkAux 0 ts.length ts

/-- CppcheckData.__init__ (lines 729-766) against the shared class state:
the constructor performs the bounded scan, then links the whole shared
rawTokens list, and the instance exposes that shared list.  The updated
class state is returned alongside the instance view because the next
construction starts from it. -/
def cppcheckDataInit (st : CppcheckDataState) (doc : List RootItem) :
    Option (CppcheckDataView × CppcheckDataState) := do
  let r ← rootScan st none [] false false false doc
  let linked := rawlink r.2.rawTokens
  some ({ platform := r.1, rawTokens := linked, suppressions := r.2.suppressions },
        { rawTokens := linked, suppressions := r.2.suppressions })

def c7PlatformAttrs : Attrs :=
  [("name", "unix64"), ("char_bit", "8"), ("short_bit", "16"), ("int_bit", "32"),
   ("long_bit", "64"), ("long_long_bit", "64"), ("pointer_bit", "64")]

def c7TokAttrs : Attrs := [("str", "x"), ("linenr", "1"), ("column", "1"), ("fileIndex", "0")]

def c7Doc : List RootItem :=
  [RootItem.platform c7PlatformAttrs,
   RootItem.rawtokens [RootChild.file [("name", "a.c")], RootChild.tok c7TokAttrs],
   RootItem.suppressions [[("errorId", "e1")]]]

/-- Claim C7 fails on the code: rawTokens and suppressions are mutable
class attributes that the constructor appends to without rebinding, so
state leaks across constructions.  On a document with one raw token and
one suppression, the first construction exposes one of each, but a second
construction of the same document exposes two of each — every raw token
and suppression of the document appears twice, against the stated
purity. -/
theorem c7_class_state_leaks :
    ((cppcheckDataInit { rawTokens := [], suppressions := [] } c7Doc).map
      (fun p => (p.1.rawTokens.length, p.1.suppressions.length)) = some (1, 1)) ∧
    (((cppcheckDataInit { rawTokens := [], suppressions := [] } c7Doc).bind
      (fun p => cppcheckDataInit p.2 c7Doc)).map
      (fun p => (p.1.rawTokens.length, p.1.suppressions.length)) = some (2, 2)) := by
  exact ⟨by decide, by decide⟩

end Cppcheckdata
